import Mathlib

/-!
Shallow embedding of the cart / order / payment core of the
`ecommerce-platform` repository (Express + Mongoose, TypeScript).

Money amounts are modelled as exact rationals (`Rat`); quantities and
timestamps as integers.  The Mongo document store is modelled as an
association list from product ids to `Product` documents, read with
`findProduct` (= `Product.findById`) and written with `saveProduct`
(= `product.save()`).  Mongoose `pre('save')` hooks are modelled by the
`cartSave` / `orderSave` functions, which every handler applies before
returning a persisted document, exactly as the schema files install them.
-/

namespace Ecommerce

/-- JavaScript `Math.round`: round half toward positive infinity. -/
def jsRound (q : Rat) : Int := ⌊q + 1/2⌋

/-- Rounding to two decimals via `Math.round(x * 100) / 100`. -/
def round2 (q : Rat) : Rat := (jsRound (q * 100) : Rat) / 100

/-- `items.reduce((sum, item) => sum + item.total, 0)` on the line totals. -/
def sumLineTotals (ts : List Rat) : Rat := ts.foldl (· + ·) 0

/-- `price: { regular, sale? }` of `models/Product.ts` (currency omitted). -/
structure Price where
  regular : Rat
  sale : Option Rat
deriving DecidableEq, Repr

/-- `inventory` subdocument of `models/Product.ts`. -/
structure Inventory where
  quantity : Int
  trackQuantity : Bool
deriving DecidableEq, Repr

/-- `analytics` subdocument of `models/Product.ts` (views omitted). -/
structure Analytics where
  purchases : Int
  revenue : Rat
deriving DecidableEq, Repr

/-- Claim-relevant projection of a `Product` document. -/
structure Product where
  name : String
  price : Price
  inventory : Inventory
  analytics : Analytics
  isActive : Bool
deriving DecidableEq, Repr

/-- `product.price.sale || product.price.regular` (JS truthiness: an absent
or zero sale price falls back to the regular price). -/
def effectivePrice (p : Product) : Rat :=
  match p.price.sale with
  | some s => if s = 0 then p.price.regular else s
  | none => p.price.regular

/-- The product collection: id-keyed documents. -/
abbrev Products := List (Nat × Product)

/-- `Product.findById(pid)`. -/
def findProduct (ps : Products) (pid : Nat) : Option Product :=
  (List.find? (fun e => e.1 == pid) ps).map (fun e => e.2)

/-- `product.save()`: write back the document with id `pid`. -/
def saveProduct (ps : Products) (pid : Nat) (p : Product) : Products :=
  List.map (fun e => if e.1 == pid then (pid, p) else e) ps

/-- `totals` subdocument shared by Cart and Order. -/
structure Totals where
  subtotal : Rat
  tax : Rat
  shipping : Rat
  total : Rat
deriving DecidableEq, Repr

/-- Cart line item (`cartItemSchema` of `models/Cart.ts`). -/
structure CartItem where
  product : Nat
  quantity : Int
  price : Rat
  total : Rat
deriving DecidableEq, Repr

/-- Claim-relevant projection of a `Cart` document (identity and TTL
fields omitted: no claim mentions them). -/
structure Cart where
  items : List CartItem
  totals : Totals
deriving DecidableEq, Repr

/-- The totals formula installed by `cartSchema.pre('save')` in
`models/Cart.ts`, as a function of the line totals. -/
def cartTotalsFormula (lineTotals : List Rat) : Totals :=
  let subtotal := sumLineTotals lineTotals
  let tax := (jsRound (subtotal * 0.1 * 100) : Rat) / 100
  let shipping : Rat := if subtotal ≥ 100 then 0 else 10
  { subtotal := subtotal, tax := tax, shipping := shipping,
    total := subtotal + tax + shipping }

/-- `cart.save()`: the pre-save hook recomputes `totals` from `items`. -/
def cartSave (c : Cart) : Cart :=
  { c with totals := cartTotalsFormula (c.items.map CartItem.total) }

/-- Order line item (`OrderItemSchema` of `models/Order.ts`). -/
structure OrderItem where
  product : Nat
  name : String
  price : Rat
  quantity : Int
  total : Rat
deriving DecidableEq, Repr

inductive PaymentStatus
  | pending | paid | failed | refunded
deriving DecidableEq, Repr

inductive OrderStatus
  | pending | confirmed | processing | shipped | delivered | cancelled
deriving DecidableEq, Repr

/-- Claim-relevant projection of an `Order` document (addresses, notes,
tracking and the generated order number omitted: no claim depends on
their values). -/
structure Order where
  user : Nat
  items : List OrderItem
  totals : Totals
  paymentStatus : PaymentStatus
  orderStatus : OrderStatus
  paymentIntentId : Option String
  paidAt : Option Int
  refundedAt : Option Int
  refundReason : Option String
deriving DecidableEq, Repr

/-- The totals formula installed by `OrderSchema.pre('save')` in
`models/Order.ts`, as a function of the line totals. -/
def orderTotalsFormula (lineTotals : List Rat) : Totals :=
  let subtotal := sumLineTotals lineTotals
  let tax := (jsRound (subtotal * 0.10 * 100) : Rat) / 100
  let shipping : Rat := if subtotal ≥ 100 then 0 else 10
  { subtotal := subtotal, tax := tax, shipping := shipping,
    total := subtotal + tax + shipping }

/-- `order.save()`: the pre-save hook recomputes `totals` from `items`
(the order-number hook is identity on the modelled fields). -/
def orderSave (o : Order) : Order :=
  { o with totals := orderTotalsFormula (o.items.map OrderItem.total) }

/-! ## Cart routes (`routes/cart.ts`) -/

inductive AddError
  | authRequired | notFound | insufficientInventory
deriving DecidableEq, Repr

/-- Update the first cart line for `pid` in place (`findIndex` + in-place
update of `routes/cart.ts` lines 137-148), or push a new line
(lines 149-157).  For an existing line the source sets
`total = newQuantity * itemPrice` with the re-fetched `itemPrice` and
leaves the stored `price` field untouched. -/
def addToItems (items : List CartItem) (pid : Nat) (q : Int) (itemPrice : Rat) :
    List CartItem :=
  match items with
  | [] => [{ product := pid, quantity := q, price := itemPrice, total := q * itemPrice }]
  | it :: rest =>
    if it.product == pid then
      { it with quantity := it.quantity + q, total := (it.quantity + q) * itemPrice } :: rest
    else
      it :: addToItems rest pid q itemPrice

/-- `POST /cart/add` (`routes/cart.ts` lines 75-177).  `cart?` is the
result of `Cart.findOne` for the caller's identity; `identityOk` models
the userId-or-sessionId guard. -/
def addItem (ps : Products) (cart? : Option Cart) (identityOk : Bool)
    (productId : Nat) (quantity : Int) : Except AddError Cart :=
  if ¬ identityOk then .error .authRequired
  else
    match findProduct ps productId with
    | none => .error .notFound
    | some product =>
      if product.inventory.trackQuantity ∧ product.inventory.quantity < quantity then
        .error .insufficientInventory
      else
        let cart := cart?.getD { items := [], totals := ⟨0, 0, 0, 0⟩ }
        let itemPrice := effectivePrice product
        .ok (cartSave { cart with items := addToItems cart.items productId quantity itemPrice })

inductive UpdateError
  | fieldsRequired | invalidQuantity | authRequired | cartNotFound
  | itemNotFound | productNotFound | insufficientInventory
deriving DecidableEq, Repr

/-- Update the first cart line for `pid` to quantity `q`, with
`total = q * storedPrice` (`routes/cart.ts` lines 261-263); `none` when
no line matches. -/
def updateInItems (items : List CartItem) (pid : Nat) (q : Int) :
    Option (List CartItem) :=
  match items with
  | [] => none
  | it :: rest =>
    if it.product == pid then
      some ({ it with quantity := q, total := q * it.price } :: rest)
    else
      (updateInItems rest pid q).map (fun tl => it :: tl)

/-- `PUT /cart/update` (`routes/cart.ts` lines 180-281).  The source
rejects a missing/zero quantity (`!quantity`), then `quantity < 1`. -/
def updateItem (ps : Products) (cart? : Option Cart) (identityOk : Bool)
    (productId : Nat) (quantity : Int) : Except UpdateError Cart :=
  if quantity = 0 then .error .fieldsRequired
  else if quantity < 1 then .error .invalidQuantity
  else if ¬ identityOk then .error .authRequired
  else
    match cart? with
    | none => .error .cartNotFound
    | some cart =>
      if (List.find? (fun it => it.product == productId) cart.items).isNone then
        .error .itemNotFound
      else
        match findProduct ps productId with
        | none => .error .productNotFound
        | some product =>
          if product.inventory.trackQuantity ∧ product.inventory.quantity < quantity then
            .error .insufficientInventory
          else
            match updateInItems cart.items productId quantity with
            | some items2 => .ok (cartSave { cart with items := items2 })
            | none => .error .itemNotFound

/-! ## Checkout and cancel (`routes/orders.ts`) -/

/-- The (product, quantity, lineTotal) fields the inventory loops read
from a cart or order line. -/
structure Adj where
  product : Nat
  quantity : Int
  total : Rat
deriving DecidableEq, Repr

def CartItem.adj (it : CartItem) : Adj :=
  { product := it.product, quantity := it.quantity, total := it.total }

def OrderItem.adj (it : OrderItem) : Adj :=
  { product := it.product, quantity := it.quantity, total := it.total }

/-- One step of checkout's inventory loop (`routes/orders.ts` lines
93-102): products that are missing or do not track quantity are left
untouched. -/
def checkoutAdjust (ps : Products) (a : Adj) : Products :=
  match findProduct ps a.product with
  | none => ps
  | some p =>
    if p.inventory.trackQuantity then
      saveProduct ps a.product
        { p with
          inventory.quantity := p.inventory.quantity - a.quantity,
          analytics.purchases := p.analytics.purchases + a.quantity,
          analytics.revenue := p.analytics.revenue + a.total }
    else ps

def checkoutAdjustAll (ps : Products) (adjs : List Adj) : Products :=
  adjs.foldl checkoutAdjust ps

/-- One step of cancel's inventory-restoration loop (`routes/orders.ts`
lines 236-245): the exact mirror of `checkoutAdjust`. -/
def cancelAdjust (ps : Products) (a : Adj) : Products :=
  match findProduct ps a.product with
  | none => ps
  | some p =>
    if p.inventory.trackQuantity then
      saveProduct ps a.product
        { p with
          inventory.quantity := p.inventory.quantity + a.quantity,
          analytics.purchases := p.analytics.purchases - a.quantity,
          analytics.revenue := p.analytics.revenue - a.total }
    else ps

def cancelAdjustAll (ps : Products) (adjs : List Adj) : Products :=
  adjs.foldl cancelAdjust ps

inductive CheckoutError
  | validationError | emptyCart | productNotFound | productUnavailable
  | insufficientInventory
deriving DecidableEq, Repr

/-- The per-line validation loop of checkout (`routes/orders.ts` lines
35-61): first failure wins. -/
def validateItems (ps : Products) : List CartItem → Option CheckoutError
  | [] => none
  | item :: rest =>
    match findProduct ps item.product with
    | none => some .productNotFound
    | some p =>
      if ¬ p.isActive then some .productUnavailable
      else if p.inventory.trackQuantity ∧ p.inventory.quantity < item.quantity then
        some .insufficientInventory
      else validateItems ps rest

/-- Order-item snapshot loop (`routes/orders.ts` lines 63-76): each line
whose product is still found is copied with the cart's price and total. -/
def makeOrderItems (ps : Products) (items : List CartItem) : List OrderItem :=
  items.filterMap (fun item =>
    (findProduct ps item.product).map (fun p =>
      { product := item.product, name := p.name, price := item.price,
        quantity := item.quantity, total := item.total }))

/-- Outcome of a successful checkout: the updated product collection, the
persisted order, and the caller's cart after `Cart.findOneAndDelete`. -/
structure CheckoutOk where
  products : Products
  order : Order
  cartAfter : Option Cart
deriving DecidableEq, Repr

/-- `POST /orders/checkout` (`routes/orders.ts` lines 10-126).  `cart?`
is the result of `Cart.findOne({user})`; `hasShipping` / `hasPayment`
model the presence of the required request fields. -/
def checkout (ps : Products) (cart? : Option Cart) (user : Nat)
    (hasShipping hasPayment : Bool) : Except CheckoutError CheckoutOk :=
  if ¬ (hasShipping ∧ hasPayment) then .error .validationError
  else
    match cart? with
    | none => .error .emptyCart
    | some cart =>
      if cart.items.length = 0 then .error .emptyCart
      else
        match validateItems ps cart.items with
        | some e => .error e
        | none =>
          let order := orderSave
            { user := user, items := makeOrderItems ps cart.items,
              totals := cart.totals, paymentStatus := .pending,
              orderStatus := .pending, paymentIntentId := none,
              paidAt := none, refundedAt := none, refundReason := none }
          let ps2 := checkoutAdjustAll ps (cart.items.map CartItem.adj)
          .ok { products := ps2, order := order, cartAfter := none }

inductive CancelError
  | notFound | invalidTransition
deriving DecidableEq, Repr

/-- `PATCH /orders/:id/cancel` (`routes/orders.ts` lines 208-261): legal
only from `pending` or `confirmed`; sets `cancelled`, saves, then
restores inventory from the order's lines. -/
def cancelOrder (ps : Products) (order : Order) :
    Except CancelError (Products × Order) :=
  if ¬ (order.orderStatus = .pending ∨ order.orderStatus = .confirmed) then
    .error .invalidTransition
  else
    let order2 := orderSave { order with orderStatus := .cancelled }
    let ps2 := cancelAdjustAll ps (order2.items.map OrderItem.adj)
    .ok (ps2, order2)

/-- The net effect of one `checkoutAdjust` step on the single affected
product document. -/
def checkoutAdjustP (a : Adj) (p : Product) : Product :=
  if p.inventory.trackQuantity then
    { p with
      inventory.quantity := p.inventory.quantity - a.quantity,
      analytics.purchases := p.analytics.purchases + a.quantity,
      analytics.revenue := p.analytics.revenue + a.total }
  else p

/-- The net effect of one `cancelAdjust` step on the single affected
product document. -/
def cancelAdjustP (a : Adj) (p : Product) : Product :=
  if p.inventory.trackQuantity then
    { p with
      inventory.quantity := p.inventory.quantity + a.quantity,
      analytics.purchases := p.analytics.purchases - a.quantity,
      analytics.revenue := p.analytics.revenue - a.total }
  else p

/-! ## Payment routes (`routes/payments.ts`) -/

inductive RefundError
  | notPaid | noPaymentIntent | providerError
deriving DecidableEq, Repr

/-- `POST /payments/refund` (`routes/payments.ts` lines 156-230).
`providerOk` models the Stripe `refundPayment` outcome; `now` the
`new Date()` stamp.  JS `if (reason)` stores only a non-empty reason. -/
def refund (ps : Products) (order : Order) (reason : Option String)
    (providerOk : Bool) (now : Int) : Except RefundError (Products × Order) :=
  if order.paymentStatus ≠ .paid then .error .notPaid
  else if order.paymentIntentId = none then .error .noPaymentIntent
  else if ¬ providerOk then .error .providerError
  else
    let order2 := orderSave
      { order with
        paymentStatus := .refunded, orderStatus := .cancelled,
        refundedAt := some now,
        refundReason :=
          match reason with
          | some r => if r ≠ "" then some r else order.refundReason
          | none => order.refundReason }
    .ok (ps, order2)

/-- The `payment_intent.succeeded` branch of `POST /payments/webhook`
(`routes/payments.ts` lines 289-303): unconditionally sets `paid` /
`confirmed` and re-stamps `paidAt` with the delivery time. -/
def webhookPaymentSucceeded (order : Order) (now : Int) : Order :=
  orderSave { order with paymentStatus := .paid, orderStatus := .confirmed,
                         paidAt := some now }

/-! ## Concrete fixtures used by counterexamples and witnesses -/

/-- A product whose catalog price has risen to 20 after it was added to a
cart at a snapshot price of 10. -/
def prodStale : Product where
  name := "widget"
  price := { regular := 20, sale := none }
  inventory := { quantity := 100, trackQuantity := true }
  analytics := { purchases := 0, revenue := 0 }
  isActive := true

def psStale : Products := [(1, prodStale)]

/-- A cart holding one line of `prodStale`, snapshotted at price 10. -/
def cartStale : Cart where
  items := [{ product := 1, quantity := 1, price := 10, total := 10 }]
  totals := ⟨10, 1, 10, 21⟩

/-- A product that does not track inventory. -/
def prodUntracked : Product where
  name := "gadget"
  price := { regular := 5, sale := none }
  inventory := { quantity := 9, trackQuantity := false }
  analytics := { purchases := 0, revenue := 0 }
  isActive := true

def psUntracked : Products := [(7, prodUntracked)]

/-- A cart holding two units of `prodUntracked`. -/
def cartUntracked : Cart where
  items := [{ product := 7, quantity := 2, price := 5, total := 10 }]
  totals := ⟨0, 0, 0, 0⟩

/-- A tracked, active product with prior analytics. -/
def prodTracked : Product where
  name := "thing"
  price := { regular := 30, sale := none }
  inventory := { quantity := 5, trackQuantity := true }
  analytics := { purchases := 2, revenue := 60 }
  isActive := true

def psTracked : Products := [(4, prodTracked)]

/-- A cart holding two units of `prodTracked`. -/
def cartTracked : Cart where
  items := [{ product := 4, quantity := 2, price := 30, total := 60 }]
  totals := ⟨0, 0, 0, 0⟩

/-- A pending order with a stored payment intent. -/
def orderPendingIntent : Order where
  user := 1
  items := []
  totals := ⟨0, 0, 10, 10⟩
  paymentStatus := .pending
  orderStatus := .pending
  paymentIntentId := some "pi_1"
  paidAt := none
  refundedAt := none
  refundReason := none

/-- A paid, confirmed order with a stored payment intent. -/
def orderPaidIntent : Order where
  user := 1
  items := []
  totals := ⟨0, 0, 10, 10⟩
  paymentStatus := .paid
  orderStatus := .confirmed
  paymentIntentId := some "pi_1"
  paidAt := some 0
  refundedAt := none
  refundReason := none

/-- The outcome of checking out `cartTracked` against `psTracked`. -/
def resTracked : CheckoutOk where
  products :=
    [(4, { name := "thing", price := { regular := 30, sale := none },
           inventory := { quantity := 3, trackQuantity := true },
           analytics := { purchases := 4, revenue := 120 }, isActive := true })]
  order :=
    { user := 9,
      items := [{ product := 4, name := "thing", price := 30, quantity := 2, total := 60 }],
      totals := ⟨60, 6, 10, 76⟩, paymentStatus := .pending, orderStatus := .pending,
      paymentIntentId := none, paidAt := none, refundedAt := none, refundReason := none }
  cartAfter := none

/-- The outcome of refunding `orderPaidIntent` at time 5 with reason
`"why"`. -/
def orderRefunded : Order where
  user := 1
  items := []
  totals := ⟨0, 0, 10, 10⟩
  paymentStatus := .refunded
  orderStatus := .cancelled
  paymentIntentId := some "pi_1"
  paidAt := some 0
  refundedAt := some 5
  refundReason := some "why"

/-- An empty cart. -/
def cartEmpty : Cart where
  items := []
  totals := ⟨0, 0, 0, 0⟩

/-! ## Basic lemmas about the document store -/

theorem ratPointOne : (0.1 : Rat) = 0.10 := by norm_num

theorem findProduct_nil (q : Nat) : findProduct [] q = none := rfl

theorem findProduct_cons (e : Nat × Product) (rest : Products) (q : Nat) :
    findProduct (e :: rest) q = if e.1 = q then some e.2 else findProduct rest q := by
  simp only [findProduct, List.find?]
  cases hbe : (e.1 == q) with
  | true =>
    have h : e.1 = q := by simpa using hbe
    simp [h]
  | false =>
    have h : ¬ (e.1 = q) := by simpa using hbe
    simp [h]

theorem saveProduct_cons (e : Nat × Product) (rest : Products) (pid : Nat) (p : Product) :
    saveProduct (e :: rest) pid p =
      (if e.1 = pid then (pid, p) else e) :: saveProduct rest pid p := by
  by_cases he : e.1 = pid <;> simp [saveProduct, he]

theorem find_save (ps : Products) (pid : Nat) (p : Product) (q : Nat) :
    findProduct (saveProduct ps pid p) q =
      if q = pid then (findProduct ps pid).map (fun _ => p) else findProduct ps q := by
  induction ps with
  | nil => simp [findProduct_nil, saveProduct]
  | cons e rest ih =>
    rw [saveProduct_cons]
    by_cases he : e.1 = pid
    · by_cases hq : q = pid
      · subst hq
        simp [findProduct_cons, he]
      · have h1 : e.1 ≠ q := by rw [he]; exact Ne.symm hq
        have h2 : pid ≠ q := Ne.symm hq
        simp [findProduct_cons, he, hq, h1, h2, ih]
    · by_cases hq : q = pid
      · subst hq
        simp [findProduct_cons, he, ih]
      · simp [findProduct_cons, he, hq, ih]

/-! ## Pointwise characterization of the inventory loops -/

theorem find_checkoutAdjust (ps : Products) (a : Adj) (q : Nat) :
    findProduct (checkoutAdjust ps a) q =
      if q = a.product then (findProduct ps q).map (checkoutAdjustP a)
      else findProduct ps q := by
  unfold checkoutAdjust
  cases hf : findProduct ps a.product with
  | none =>
    by_cases hq : q = a.product
    · subst hq; simp [hf]
    · simp [hq]
  | some p =>
    by_cases ht : p.inventory.trackQuantity
    · simp only [ht, if_true]
      rw [find_save]
      by_cases hq : q = a.product
      · subst hq; simp [hf, checkoutAdjustP, ht]
      · simp [hq]
    · simp only [ht, if_false]
      by_cases hq : q = a.product
      · subst hq; simp [hf, checkoutAdjustP, ht]
      · simp [hq]

theorem find_cancelAdjust (ps : Products) (a : Adj) (q : Nat) :
    findProduct (cancelAdjust ps a) q =
      if q = a.product then (findProduct ps q).map (cancelAdjustP a)
      else findProduct ps q := by
  unfold cancelAdjust
  cases hf : findProduct ps a.product with
  | none =>
    by_cases hq : q = a.product
    · subst hq; simp [hf]
    · simp [hq]
  | some p =>
    by_cases ht : p.inventory.trackQuantity
    · simp only [ht, if_true]
      rw [find_save]
      by_cases hq : q = a.product
      · subst hq; simp [hf, cancelAdjustP, ht]
      · simp [hq]
    · simp only [ht, if_false]
      by_cases hq : q = a.product
      · subst hq; simp [hf, cancelAdjustP, ht]
      · simp [hq]

theorem cancelP_checkoutP (a : Adj) (p : Product) :
    cancelAdjustP a (checkoutAdjustP a p) = p := by
  obtain ⟨name, price, ⟨qty, track⟩, ⟨pur, rev⟩, act⟩ := p
  cases track with
  | false => simp [checkoutAdjustP, cancelAdjustP]
  | true =>
    have h1 : qty - a.quantity + a.quantity = qty := by omega
    have h2 : pur + a.quantity - a.quantity = pur := by omega
    have h3 : rev + a.total - a.total = rev := by ring
    simp [checkoutAdjustP, cancelAdjustP, h1, h2, h3]

theorem cancelP_comm_checkoutP (a b : Adj) (p : Product) :
    cancelAdjustP a (checkoutAdjustP b p) = checkoutAdjustP b (cancelAdjustP a p) := by
  obtain ⟨name, price, ⟨qty, track⟩, ⟨pur, rev⟩, act⟩ := p
  cases track with
  | false => simp [checkoutAdjustP, cancelAdjustP]
  | true =>
    have h1 : qty - b.quantity + a.quantity = qty + a.quantity - b.quantity := by omega
    have h2 : pur + b.quantity - a.quantity = pur - a.quantity + b.quantity := by omega
    have h3 : rev + b.total - a.total = rev - a.total + b.total := by ring
    simp [checkoutAdjustP, cancelAdjustP, h1, h2, h3]

/-- Extensional equality of two product collections: the store answers
every `findById` identically. -/
def ProductsEquiv (x y : Products) : Prop := ∀ q, findProduct x q = findProduct y q

theorem ProductsEquiv.rfl (x : Products) : ProductsEquiv x x := fun _ => Eq.refl _

theorem ProductsEquiv.trans {x y z : Products}
    (h1 : ProductsEquiv x y) (h2 : ProductsEquiv y z) : ProductsEquiv x z :=
  fun q => (h1 q).trans (h2 q)

theorem checkoutAdjust_congr {x y : Products} (a : Adj) (h : ProductsEquiv x y) :
    ProductsEquiv (checkoutAdjust x a) (checkoutAdjust y a) := by
  intro q
  rw [find_checkoutAdjust, find_checkoutAdjust, h q]

theorem cancelAdjust_congr {x y : Products} (a : Adj) (h : ProductsEquiv x y) :
    ProductsEquiv (cancelAdjust x a) (cancelAdjust y a) := by
  intro q
  rw [find_cancelAdjust, find_cancelAdjust, h q]

theorem checkoutAdjustAll_congr {x y : Products} (l : List Adj) (h : ProductsEquiv x y) :
    ProductsEquiv (checkoutAdjustAll x l) (checkoutAdjustAll y l) := by
  induction l generalizing x y with
  | nil => exact h
  | cons a l ih => exact ih (checkoutAdjust_congr a h)

theorem cancelAdjustAll_congr {x y : Products} (l : List Adj) (h : ProductsEquiv x y) :
    ProductsEquiv (cancelAdjustAll x l) (cancelAdjustAll y l) := by
  induction l generalizing x y with
  | nil => exact h
  | cons a l ih => exact ih (cancelAdjust_congr a h)

theorem cancelAdjust_comm_checkoutAdjust (x : Products) (a b : Adj) :
    ProductsEquiv (cancelAdjust (checkoutAdjust x b) a)
      (checkoutAdjust (cancelAdjust x a) b) := by
  intro q
  rw [find_cancelAdjust, find_checkoutAdjust, find_checkoutAdjust, find_cancelAdjust]
  by_cases ha : q = a.product
  · by_cases hb : q = b.product
    · simp only [if_pos ha, if_pos hb]
      cases findProduct x q <;> simp [cancelP_comm_checkoutP]
    · simp only [if_pos ha, if_neg hb]
  · by_cases hb : q = b.product
    · simp only [if_neg ha, if_pos hb]
    · simp only [if_neg ha, if_neg hb]

theorem cancelAdjust_comm_checkoutAdjustAll (x : Products) (a : Adj) (l : List Adj) :
    ProductsEquiv (cancelAdjust (checkoutAdjustAll x l) a)
      (checkoutAdjustAll (cancelAdjust x a) l) := by
  induction l generalizing x with
  | nil => exact ProductsEquiv.rfl _
  | cons b l ih =>
    have h1 : ProductsEquiv (cancelAdjust (checkoutAdjustAll (checkoutAdjust x b) l) a)
        (checkoutAdjustAll (cancelAdjust (checkoutAdjust x b) a) l) := ih _
    have h2 : ProductsEquiv (cancelAdjust (checkoutAdjust x b) a)
        (checkoutAdjust (cancelAdjust x a) b) := cancelAdjust_comm_checkoutAdjust x a b
    exact h1.trans (checkoutAdjustAll_congr l h2)

theorem cancelAdjust_checkoutAdjust_inverse (x : Products) (a : Adj) :
    ProductsEquiv (cancelAdjust (checkoutAdjust x a) a) x := by
  intro q
  rw [find_cancelAdjust, find_checkoutAdjust]
  by_cases ha : q = a.product
  · simp only [if_pos ha]
    cases findProduct x q <;> simp [cancelP_checkoutP]
  · simp only [if_neg ha]

/-- Running checkout's inventory loop and then cancel's restoration loop
over the same lines is the identity on the product store. -/
theorem cancelAll_checkoutAll_inverse (x : Products) (l : List Adj) :
    ProductsEquiv (cancelAdjustAll (checkoutAdjustAll x l) l) x := by
  induction l generalizing x with
  | nil => exact ProductsEquiv.rfl _
  | cons a l ih =>
    have h1 : ProductsEquiv
        (cancelAdjust (checkoutAdjustAll (checkoutAdjust x a) l) a)
        (checkoutAdjustAll (cancelAdjust (checkoutAdjust x a) a) l) :=
      cancelAdjust_comm_checkoutAdjustAll _ a l
    have h2 : ProductsEquiv
        (checkoutAdjustAll (cancelAdjust (checkoutAdjust x a) a) l)
        (checkoutAdjustAll x l) :=
      checkoutAdjustAll_congr l (cancelAdjust_checkoutAdjust_inverse x a)
    have h3 : ProductsEquiv
        (cancelAdjustAll (cancelAdjust (checkoutAdjustAll (checkoutAdjust x a) l) a) l)
        (cancelAdjustAll (checkoutAdjustAll x l) l) :=
      cancelAdjustAll_congr l (h1.trans h2)
    exact h3.trans (ih x)

/-! ## C2: totals invariant -/

/-- C2: For every cart and every order, after every persisted mutation the
stored totals satisfy subtotal = sum of line totals,
tax = round(subtotal * 0.10, 2), shipping = 0 iff subtotal >= 100 else 10,
and total = subtotal + tax + shipping; carts and orders use the same
formula.  (In the model every persisting route applies `cartSave` /
`orderSave`, the embedding of the Mongoose pre-save hooks.) -/
theorem C2_totals_invariant :
    (∀ lineTotals : List Rat, cartTotalsFormula lineTotals = orderTotalsFormula lineTotals) ∧
    (∀ c : Cart,
      (cartSave c).totals.subtotal = sumLineTotals ((cartSave c).items.map CartItem.total) ∧
      (cartSave c).totals.tax = round2 ((cartSave c).totals.subtotal * 0.10) ∧
      (cartSave c).totals.shipping = (if (cartSave c).totals.subtotal ≥ 100 then 0 else 10) ∧
      (cartSave c).totals.total =
        (cartSave c).totals.subtotal + (cartSave c).totals.tax + (cartSave c).totals.shipping) ∧
    (∀ o : Order,
      (orderSave o).totals.subtotal = sumLineTotals ((orderSave o).items.map OrderItem.total) ∧
      (orderSave o).totals.tax = round2 ((orderSave o).totals.subtotal * 0.10) ∧
      (orderSave o).totals.shipping = (if (orderSave o).totals.subtotal ≥ 100 then 0 else 10) ∧
      (orderSave o).totals.total =
        (orderSave o).totals.subtotal + (orderSave o).totals.tax + (orderSave o).totals.shipping) := by
  refine ⟨fun lineTotals => ?_, fun c => ?_, fun o => ?_⟩
  · simp only [cartTotalsFormula, orderTotalsFormula, ratPointOne]
  · exact ⟨rfl, by simp only [cartSave, cartTotalsFormula, round2, ratPointOne], rfl, rfl⟩
  · exact ⟨rfl, rfl, rfl, rfl⟩

/-! ## Checkout inversion lemmas -/

theorem validateItems_cons {ps : Products} {it : CartItem} {rest : List CartItem}
    (h : validateItems ps (it :: rest) = none) :
    (∃ p, findProduct ps it.product = some p) ∧ validateItems ps rest = none := by
  cases hf : findProduct ps it.product with
  | none => simp [validateItems, hf] at h
  | some p =>
    refine ⟨⟨p, rfl⟩, ?_⟩
    simp only [validateItems, hf] at h
    by_cases h1 : p.isActive
    · by_cases h2 : p.inventory.trackQuantity ∧ p.inventory.quantity < it.quantity
      · simp [h1, h2] at h
      · simpa [h1, h2] using h
    · simp [h1] at h

theorem makeOrderItems_adj {ps : Products} {items : List CartItem}
    (h : validateItems ps items = none) :
    (makeOrderItems ps items).map OrderItem.adj = items.map CartItem.adj := by
  induction items with
  | nil => rfl
  | cons it rest ih =>
    obtain ⟨⟨p, hp⟩, hrest⟩ := validateItems_cons h
    simp only [makeOrderItems, List.filterMap_cons, hp, Option.map_some', List.map_cons]
    exact congrArg _ (ih hrest)

theorem makeOrderItems_prices {ps : Products} {items : List CartItem}
    (h : validateItems ps items = none) :
    (makeOrderItems ps items).map (fun i => (i.price, i.total)) =
      items.map (fun i => (i.price, i.total)) := by
  induction items with
  | nil => rfl
  | cons it rest ih =>
    obtain ⟨⟨p, hp⟩, hrest⟩ := validateItems_cons h
    simp only [makeOrderItems, List.filterMap_cons, hp, Option.map_some', List.map_cons]
    exact congrArg _ (ih hrest)

/-- The order produced by a successful checkout on cart contents
`items` for user `user`. -/
def checkoutOrder (ps : Products) (items : List CartItem) (totals : Totals)
    (user : Nat) : Order :=
  orderSave
    { user := user, items := makeOrderItems ps items, totals := totals,
      paymentStatus := .pending, orderStatus := .pending,
      paymentIntentId := none, paidAt := none, refundedAt := none,
      refundReason := none }

theorem checkout_ok_inv {ps : Products} {cart? : Option Cart} {user : Nat}
    {hs hp : Bool} {r : CheckoutOk}
    (h : checkout ps cart? user hs hp = Except.ok r) :
    ∃ cart, cart? = some cart ∧ cart.items.length ≠ 0 ∧
      validateItems ps cart.items = none ∧
      r = { products := checkoutAdjustAll ps (cart.items.map CartItem.adj),
            order := checkoutOrder ps cart.items cart.totals user,
            cartAfter := none } := by
  unfold checkout at h
  by_cases hv : hs ∧ hp
  · simp only [hv, not_true, if_neg, if_false] at h
    cases cart? with
    | none => simp at h
    | some cart =>
      refine ⟨cart, rfl, ?_⟩
      by_cases hl : cart.items.length = 0
      · simp [hl] at h
      · refine ⟨hl, ?_⟩
        cases hval : validateItems ps cart.items with
        | some e => simp [hl, hval] at h
        | none =>
          simp only [hl, hval, if_neg, if_false] at h
          refine ⟨rfl, ?_⟩
          simpa [checkoutOrder] using h.symm
  · simp [hv] at h

/-! ## Single-product effect of the checkout inventory loop -/

theorem find_checkoutAdjustAll_of_absent {l : List Adj} {q : Nat}
    (h : ∀ a ∈ l, a.product ≠ q) (ps : Products) :
    findProduct (checkoutAdjustAll ps l) q = findProduct ps q := by
  induction l generalizing ps with
  | nil => rfl
  | cons a l ih =>
    have hstep : findProduct (checkoutAdjust ps a) q = findProduct ps q := by
      rw [find_checkoutAdjust, if_neg (Ne.symm (h a (List.mem_cons_self a l)))]
    have : checkoutAdjustAll ps (a :: l) = checkoutAdjustAll (checkoutAdjust ps a) l := rfl
    rw [this, ih (fun b hb => h b (List.mem_cons_of_mem a hb)), hstep]

theorem find_checkoutAdjustAll_single {l : List Adj}
    (hnd : (l.map Adj.product).Nodup) {a : Adj} (ha : a ∈ l) (ps : Products) :
    findProduct (checkoutAdjustAll ps l) a.product =
      (findProduct ps a.product).map (checkoutAdjustP a) := by
  induction l generalizing ps with
  | nil => cases ha
  | cons b l ih =>
    have hnd2 : b.product ∉ l.map Adj.product ∧ (l.map Adj.product).Nodup := by
      rw [List.map_cons, List.nodup_cons] at hnd
      exact hnd
    have hstep : checkoutAdjustAll ps (b :: l) = checkoutAdjustAll (checkoutAdjust ps b) l := rfl
    rcases List.mem_cons.mp ha with rfl | ha2
    · have habs : ∀ c ∈ l, c.product ≠ a.product := by
        intro c hc hcc
        exact hnd2.1 (hcc ▸ List.mem_map_of_mem Adj.product hc)
      rw [hstep, find_checkoutAdjustAll_of_absent habs, find_checkoutAdjust, if_pos rfl]
    · have hne : a.product ≠ b.product := by
        intro he
        exact hnd2.1 (he ▸ List.mem_map_of_mem Adj.product ha2)
      rw [hstep, ih hnd2.2 ha2, find_checkoutAdjust, if_neg hne]

/-! ## First-match update lemmas for the cart line lists -/

theorem addToItems_found (pre : List CartItem) (old : CartItem) (rest : List CartItem)
    (pid : Nat) (q : Int) (ip : Rat)
    (hpre : ∀ it ∈ pre, it.product ≠ pid) (hold : old.product = pid) :
    addToItems (pre ++ old :: rest) pid q ip =
      pre ++ { old with quantity := old.quantity + q,
                        total := (old.quantity + q) * ip } :: rest := by
  induction pre with
  | nil => simp [addToItems, hold]
  | cons it pre ih =>
    have h1 : ¬ ((it.product == pid) = true) := by
      simpa using hpre it (List.mem_cons_self it pre)
    simp only [List.cons_append, addToItems, if_neg h1, List.cons.injEq, true_and]
    exact ih (fun x hx => hpre x (List.mem_cons_of_mem it hx))

theorem updateInItems_found (pre : List CartItem) (old : CartItem) (rest : List CartItem)
    (pid : Nat) (q : Int)
    (hpre : ∀ it ∈ pre, it.product ≠ pid) (hold : old.product = pid) :
    updateInItems (pre ++ old :: rest) pid q =
      some (pre ++ { old with quantity := q, total := q * old.price } :: rest) := by
  induction pre with
  | nil => simp [updateInItems, hold]
  | cons it pre ih =>
    have h1 : ¬ ((it.product == pid) = true) := by
      simpa using hpre it (List.mem_cons_self it pre)
    simp only [List.cons_append, updateInItems, if_neg h1, List.append_eq,
      ih (fun x hx => hpre x (List.mem_cons_of_mem it hx)), Option.map_some']

theorem find_line_found (pre : List CartItem) (old : CartItem) (rest : List CartItem)
    (pid : Nat) (hpre : ∀ it ∈ pre, it.product ≠ pid) (hold : old.product = pid) :
    List.find? (fun it => it.product == pid) (pre ++ old :: rest) = some old := by
  induction pre with
  | nil => simp [List.find?, hold]
  | cons it pre ih =>
    have hb : (it.product == pid) = false := by
      simpa using hpre it (List.mem_cons_self it pre)
    simp only [List.cons_append, List.find?, hb]
    exact ih (fun x hx => hpre x (List.mem_cons_of_mem it hx))

/-- The store and order produced by checking out `cartTracked`: a shared
concrete run used by several witnesses. -/
theorem checkout_psTracked :
    checkout psTracked (some cartTracked) 9 true true = .ok resTracked := by
  norm_num [checkout, psTracked, cartTracked, prodTracked, resTracked, validateItems,
    makeOrderItems, findProduct, checkoutAdjustAll, checkoutAdjust, checkoutAdjustP,
    saveProduct, CartItem.adj, orderSave, orderTotalsFormula, sumLineTotals, jsRound,
    List.find?, List.filterMap]

/-! ## Claim theorems -/

/-- C4: the code re-stamps `paidAt` with the delivery time on every
`payment_intent.succeeded` webhook, so redelivering the same event at a
later time does not leave the order exactly as the first delivery left
it: paymentStatus and orderStatus converge, but `paidAt` changes. -/
theorem C4_webhook_redelivery_restamps_paidAt :
    (webhookPaymentSucceeded (webhookPaymentSucceeded orderPendingIntent 0) 1).paymentStatus =
      (webhookPaymentSucceeded orderPendingIntent 0).paymentStatus ∧
    (webhookPaymentSucceeded (webhookPaymentSucceeded orderPendingIntent 0) 1).orderStatus =
      (webhookPaymentSucceeded orderPendingIntent 0).orderStatus ∧
    (webhookPaymentSucceeded orderPendingIntent 0).paidAt = some 0 ∧
    (webhookPaymentSucceeded (webhookPaymentSucceeded orderPendingIntent 0) 1).paidAt = some 1 ∧
    webhookPaymentSucceeded (webhookPaymentSucceeded orderPendingIntent 0) 1 ≠
      webhookPaymentSucceeded orderPendingIntent 0 := by
  refine ⟨rfl, rfl, rfl, rfl, fun he => ?_⟩
  have h : (some 1 : Option Int) = some 0 := congrArg Order.paidAt he
  simp at h

/-- C6: with the product present, `addItem` fails with the
insufficient-inventory error when the product tracks quantity and the
requested quantity exceeds available stock, and when
`trackQuantity = false` the call never fails with that error and in fact
succeeds regardless of the requested quantity. -/
theorem C6_addItem_inventory (ps : Products) (cart? : Option Cart)
    (pid : Nat) (q : Int) (product : Product)
    (hfind : findProduct ps pid = some product) :
    (product.inventory.trackQuantity = true → product.inventory.quantity < q →
      addItem ps cart? true pid q = .error .insufficientInventory) ∧
    (product.inventory.trackQuantity = false →
      addItem ps cart? true pid q ≠ .error .insufficientInventory ∧
      (addItem ps cart? true pid q).isOk = true) := by
  constructor
  · intro ht hq
    simp [addItem, hfind, ht, hq]
  · intro ht
    constructor <;> simp [addItem, hfind, ht, Except.isOk, Except.toBool]

theorem C6_witness :
    addItem psTracked (some cartTracked) true 4 6 = .error .insufficientInventory ∧
    (addItem psUntracked (some cartUntracked) true 7 1000).isOk = true := by
  constructor
  · exact (C6_addItem_inventory psTracked (some cartTracked) 4 6 prodTracked
      (by decide)).1 (by decide) (by decide)
  · exact ((C6_addItem_inventory psUntracked (some cartUntracked) 7 1000
      prodUntracked (by decide)).2 (by decide)).2

/-- C8: refund is rejected with the not-paid failure whenever
paymentStatus is not `paid` (writing nothing), and a successful refund
implies the order was paid and sets paymentStatus refunded, orderStatus
cancelled, stamps `refundedAt` with the current time, and stores a given
non-empty reason. -/
theorem C8_refund (ps : Products) (order : Order) (reason : Option String)
    (providerOk : Bool) (now : Int) :
    (order.paymentStatus ≠ .paid →
      refund ps order reason providerOk now = .error .notPaid) ∧
    (∀ ps2 o2, refund ps order reason providerOk now = .ok (ps2, o2) →
      order.paymentStatus = .paid ∧ o2.paymentStatus = .refunded ∧
      o2.orderStatus = .cancelled ∧ o2.refundedAt = some now ∧
      ∀ rsn, reason = some rsn → rsn ≠ "" → o2.refundReason = some rsn) := by
  constructor
  · intro hnp
    simp [refund, hnp]
  · intro ps2 o2 h
    by_cases h1 : order.paymentStatus = .paid
    · refine ⟨h1, ?_⟩
      by_cases h2 : order.paymentIntentId = none
      · simp [refund, h1, h2] at h
      · by_cases h3 : providerOk
        · simp only [refund, h1, h2, h3, ne_eq, not_true_eq_false, if_false,
            not_false_eq_true, if_true, if_neg, Except.ok.injEq, Prod.mk.injEq] at h
          obtain ⟨hps, ho⟩ := h
          subst ho
          refine ⟨rfl, rfl, rfl, ?_⟩
          intro rsn hrsn hne
          simp [orderSave, hrsn, hne]
        · simp [refund, h1, h2, h3] at h
    · simp [refund, h1] at h

theorem C8_witness :
    refund [] orderPendingIntent (some "x") true 5 = .error .notPaid ∧
    (orderPaidIntent.paymentStatus = .paid ∧ orderRefunded.paymentStatus = .refunded ∧
      orderRefunded.orderStatus = .cancelled ∧ orderRefunded.refundedAt = some 5 ∧
      ∀ rsn, (some "why" : Option String) = some rsn → rsn ≠ "" →
        orderRefunded.refundReason = some rsn) := by
  constructor
  · exact (C8_refund [] orderPendingIntent (some "x") true 5).1 (by decide)
  · refine (C8_refund [] orderPaidIntent (some "why") true 5).2 [] orderRefunded ?_
    have h1 : ¬ ((some "pi_1" : Option String) = none) := by simp
    have h2 : ¬ (("why" : String) = "") := by decide
    norm_num [refund, orderPaidIntent, orderRefunded, orderSave, orderTotalsFormula,
      sumLineTotals, jsRound, h1, h2]

/-- C9: a successful refund leaves the whole product collection
unchanged (no inventory quantity or purchase/revenue restoration, unlike
cancel) while still setting orderStatus to cancelled. -/
theorem C9_refund_frame (ps : Products) (order : Order) (reason : Option String)
    (providerOk : Bool) (now : Int) (ps2 : Products) (o2 : Order)
    (h : refund ps order reason providerOk now = .ok (ps2, o2)) :
    ps2 = ps ∧ o2.orderStatus = .cancelled := by
  by_cases h1 : order.paymentStatus = .paid
  · by_cases h2 : order.paymentIntentId = none
    · simp [refund, h1, h2] at h
    · by_cases h3 : providerOk
      · simp only [refund, h1, h2, h3, ne_eq, not_true_eq_false, if_false,
          not_false_eq_true, if_true, if_neg, Except.ok.injEq, Prod.mk.injEq] at h
        obtain ⟨hps, ho⟩ := h
        subst ho
        exact ⟨hps.symm, rfl⟩
      · simp [refund, h1, h2, h3] at h
  · simp [refund, h1] at h

/-- C10: a successful `updateItem` leaves the line's stored unit-price
snapshot unchanged and recomputes the total as the new quantity times
that stored snapshot; the live catalog price of the product plays no
part in the result. -/
theorem C10_updateItem_price_snapshot (ps : Products) (cart : Cart) (pid : Nat)
    (q : Int) (product : Product) (pre : List CartItem) (old : CartItem)
    (rest : List CartItem)
    (hq : 1 ≤ q)
    (hfind : findProduct ps pid = some product)
    (hinv : ¬ (product.inventory.trackQuantity ∧ product.inventory.quantity < q))
    (hitems : cart.items = pre ++ old :: rest)
    (hold : old.product = pid)
    (hpre : ∀ it ∈ pre, it.product ≠ pid) :
    ∃ c, updateItem ps (some cart) true pid q = .ok c ∧
      c.items.length = cart.items.length ∧
      c.items[pre.length]? =
        some { product := old.product, quantity := q, price := old.price,
               total := q * old.price } := by
  have h0 : ¬ (q = 0) := by omega
  have h1 : ¬ (q < 1) := by omega
  have hfl : List.find? (fun it => it.product == pid) cart.items = some old := by
    rw [hitems]
    exact find_line_found pre old rest pid hpre hold
  have hupd : updateInItems cart.items pid q =
      some (pre ++ { old with quantity := q, total := q * old.price } :: rest) := by
    rw [hitems]
    exact updateInItems_found pre old rest pid q hpre hold
  refine ⟨cartSave
    { cart with items := pre ++ { old with quantity := q, total := q * old.price } :: rest },
    ?_, ?_, ?_⟩
  · simp [updateItem, h0, h1, hfl, hfind, hinv, hupd]
  · show (pre ++ { old with quantity := q, total := q * old.price } :: rest).length =
      cart.items.length
    simp [hitems]
  · show (pre ++ { old with quantity := q, total := q * old.price } :: rest)[pre.length]? = _
    rw [List.getElem?_append_right (Nat.le_refl _)]
    simp

theorem C10_witness :
    (1 : Int) ≤ 3 ∧
    ∃ c, updateItem psStale (some cartStale) true 1 3 = .ok c ∧
      c.items.length = cartStale.items.length ∧
      c.items[(0 : Nat)]? =
        some { product := 1, quantity := 3, price := 10, total := 30 } := by
  refine ⟨by omega, ?_⟩
  obtain ⟨c, hc1, hc2, hc3⟩ := C10_updateItem_price_snapshot psStale cartStale 1 3 prodStale []
    { product := 1, quantity := 1, price := 10, total := 10 } [] (by omega) (by decide)
    (by decide) (by decide) (by decide) (by simp)
  simp only [List.length_nil] at hc3
  refine ⟨c, hc1, hc2, ?_⟩
  rw [hc3]
  norm_num

/-- C5 (counterexample): on `addItem` for an already-present line, the
source recomputes the line total from the re-fetched current catalog
price: with stored snapshot 10 and current price 20, adding one more
unit yields total 40 = 2 * 20, not 2 * 10 as the claim states. -/
theorem C5_counterexample :
    Except.map Cart.items (addItem psStale (some cartStale) true 1 1) =
      .ok [{ product := 1, quantity := 2, price := 10, total := 40 }] ∧
    (2 : Rat) * 10 ≠ 40 := by
  constructor
  · norm_num [addItem, psStale, cartStale, prodStale, findProduct, effectivePrice,
      addToItems, cartSave, cartTotalsFormula, sumLineTotals, jsRound, Except.map,
      List.find?]
  · norm_num

/-- C5 (amended): `addItem` on an already-present product merges into
the single existing line (item count unchanged), sums the quantities,
leaves the stored unit-price snapshot untouched, and recomputes the
line total as the new quantity times the re-fetched current effective
catalog price (sale if non-zero else regular), not the stored
snapshot. -/
theorem C5_addItem_existing (ps : Products) (cart : Cart) (pid : Nat)
    (q : Int) (product : Product) (pre : List CartItem) (old : CartItem)
    (rest : List CartItem)
    (hfind : findProduct ps pid = some product)
    (hinv : ¬ (product.inventory.trackQuantity ∧ product.inventory.quantity < q))
    (hitems : cart.items = pre ++ old :: rest)
    (hold : old.product = pid)
    (hpre : ∀ it ∈ pre, it.product ≠ pid) :
    ∃ c, addItem ps (some cart) true pid q = .ok c ∧
      c.items.length = cart.items.length ∧
      c.items[pre.length]? =
        some { product := old.product, quantity := old.quantity + q,
               price := old.price,
               total := (old.quantity + q) * effectivePrice product } := by
  have hadd : addToItems cart.items pid q (effectivePrice product) =
      pre ++
        { old with
          quantity := old.quantity + q,
          total := (old.quantity + q) * effectivePrice product } :: rest := by
    rw [hitems]
    exact addToItems_found pre old rest pid q (effectivePrice product) hpre hold
  refine ⟨cartSave
    { cart with items := addToItems cart.items pid q (effectivePrice product) }, ?_, ?_, ?_⟩
  · simp [addItem, hfind, hinv]
  · show (addToItems cart.items pid q (effectivePrice product)).length = cart.items.length
    rw [hadd]
    simp [hitems]
  · show (addToItems cart.items pid q (effectivePrice product))[pre.length]? = _
    rw [hadd, List.getElem?_append_right (Nat.le_refl _)]
    simp

theorem C5_witness :
    ∃ c, addItem psStale (some cartStale) true 1 1 = .ok c ∧
      c.items.length = cartStale.items.length ∧
      c.items[(0 : Nat)]? =
        some { product := 1, quantity := 2, price := 10,
               total := 2 * effectivePrice prodStale } := by
  obtain ⟨c, hc1, hc2, hc3⟩ := C5_addItem_existing psStale cartStale 1 1 prodStale []
    { product := 1, quantity := 1, price := 10, total := 10 } [] (by decide)
    (by decide) (by decide) (by decide) (by simp)
  simp only [List.length_nil] at hc3
  refine ⟨c, hc1, hc2, ?_⟩
  rw [hc3]
  norm_num

/-- C1 (counterexample): checkout of a cart holding two units of a
product with trackQuantity = false succeeds (and deletes the cart), yet
the product document is left entirely unchanged: inventory stays 9
(not 9 - 2) and purchases stay 0 (not 0 + 2), refuting the
unconditional per-line adjustment the claim states. -/
theorem C1_counterexample :
    Except.map (fun r => findProduct r.products 7)
        (checkout psUntracked (some cartUntracked) 1 true true) =
      .ok (some prodUntracked) ∧
    Except.map CheckoutOk.cartAfter (checkout psUntracked (some cartUntracked) 1 true true) =
      .ok none ∧
    cartUntracked.items.map CartItem.quantity = [2] ∧
    prodUntracked.inventory.quantity = 9 ∧
    prodUntracked.analytics.purchases = 0 ∧
    ¬ ((9 : Int) = 9 - 2 ∧ (0 : Int) = 0 + 2) := by
  refine ⟨rfl, rfl, rfl, rfl, rfl, by decide⟩

/-- C1 (amended): after a successful checkout (line products distinct,
as the cart routes keep them), every cart line whose product tracks
quantity has its inventory decreased by the line quantity and its
purchases/revenue analytics increased by the line quantity and line
total; a line whose product has trackQuantity = false leaves its product
document entirely unchanged; and the user's cart no longer exists. -/
theorem C1_checkout_inventory (ps : Products) (cart : Cart) (user : Nat)
    (r : CheckoutOk)
    (h : checkout ps (some cart) user true true = .ok r)
    (hnd : (cart.items.map CartItem.product).Nodup) :
    r.cartAfter = none ∧
    ∀ item ∈ cart.items, ∀ p, findProduct ps item.product = some p →
      (p.inventory.trackQuantity = true →
        findProduct r.products item.product =
          some { p with
                 inventory.quantity := p.inventory.quantity - item.quantity,
                 analytics.purchases := p.analytics.purchases + item.quantity,
                 analytics.revenue := p.analytics.revenue + item.total }) ∧
      (p.inventory.trackQuantity = false →
        findProduct r.products item.product = some p) := by
  obtain ⟨cart2, hceq, hlen, hval, hr⟩ := checkout_ok_inv h
  have hc2 : cart2 = cart := by
    injection hceq with h2
    exact h2.symm
  rw [hc2] at hval hr
  subst hr
  refine ⟨rfl, ?_⟩
  intro item hitem p hp
  have hnd2 : ((cart.items.map CartItem.adj).map Adj.product).Nodup := by
    simpa [List.map_map, Function.comp] using hnd
  have hmem : item.adj ∈ cart.items.map CartItem.adj :=
    List.mem_map_of_mem CartItem.adj hitem
  have hsingle : findProduct (checkoutAdjustAll ps (cart.items.map CartItem.adj))
      item.product = (findProduct ps item.product).map (checkoutAdjustP item.adj) :=
    find_checkoutAdjustAll_single hnd2 hmem ps
  rw [hp, Option.map_some'] at hsingle
  constructor
  · intro ht
    show findProduct (checkoutAdjustAll ps (cart.items.map CartItem.adj))
      item.product = _
    rw [hsingle]
    simp [checkoutAdjustP, ht, CartItem.adj]
  · intro ht
    show findProduct (checkoutAdjustAll ps (cart.items.map CartItem.adj))
      item.product = some p
    rw [hsingle]
    simp [checkoutAdjustP, ht]

theorem C1_witness :
    checkout psTracked (some cartTracked) 9 true true = .ok resTracked ∧
    (cartTracked.items.map CartItem.product).Nodup ∧
    (resTracked.cartAfter = none ∧
      ∀ item ∈ cartTracked.items, ∀ p, findProduct psTracked item.product = some p →
        (p.inventory.trackQuantity = true →
          findProduct resTracked.products item.product =
            some { p with
                   inventory.quantity := p.inventory.quantity - item.quantity,
                   analytics.purchases := p.analytics.purchases + item.quantity,
                   analytics.revenue := p.analytics.revenue + item.total }) ∧
        (p.inventory.trackQuantity = false →
          findProduct resTracked.products item.product = some p)) :=
  ⟨checkout_psTracked, by decide,
   C1_checkout_inventory psTracked cartTracked 9 resTracked checkout_psTracked (by decide)⟩

/-- C3: cancel succeeds exactly when orderStatus is pending or confirmed
(otherwise InvalidTransition is returned and nothing is written), and
cancelling the order produced by a successful checkout restores every
product document - tracked inventory quantity and purchase/revenue
analytics - to its pre-checkout value: the exact inverse of checkout's
adjustments. -/
theorem C3_cancel_legal_and_inverse (ps : Products) (cart : Cart) (user : Nat)
    (r : CheckoutOk)
    (h : checkout ps (some cart) user true true = .ok r) :
    (∀ (ps0 : Products) (o : Order),
      ((cancelOrder ps0 o).isOk = true ↔
        (o.orderStatus = .pending ∨ o.orderStatus = .confirmed)) ∧
      (¬ (o.orderStatus = .pending ∨ o.orderStatus = .confirmed) →
        cancelOrder ps0 o = .error .invalidTransition)) ∧
    ∀ ps2 o2, cancelOrder r.products r.order = .ok (ps2, o2) →
      o2.orderStatus = .cancelled ∧
      ∀ pid, findProduct ps2 pid = findProduct ps pid := by
  obtain ⟨cart2, hceq, hlen, hval, hr⟩ := checkout_ok_inv h
  have hc2 : cart2 = cart := by
    injection hceq with h2
    exact h2.symm
  rw [hc2] at hval hr
  subst hr
  constructor
  · intro ps0 o
    refine ⟨⟨?_, ?_⟩, ?_⟩
    · intro hok
      by_cases hs : o.orderStatus = .pending ∨ o.orderStatus = .confirmed
      · exact hs
      · simp [cancelOrder, hs, Except.isOk, Except.toBool] at hok
    · intro hs
      simp [cancelOrder, hs, Except.isOk, Except.toBool]
    · intro hs
      simp [cancelOrder, hs]
  · intro ps2 o2 hc
    have hrun : cancelOrder
        (checkoutAdjustAll ps (cart.items.map CartItem.adj))
        (checkoutOrder ps cart.items cart.totals user) =
      .ok (cancelAdjustAll (checkoutAdjustAll ps (cart.items.map CartItem.adj))
             ((makeOrderItems ps cart.items).map OrderItem.adj),
           orderSave { checkoutOrder ps cart.items cart.totals user with
                       orderStatus := OrderStatus.cancelled }) := rfl
    dsimp only at hc
    rw [hrun] at hc
    injection hc with hpair
    have h1 := congrArg Prod.fst hpair
    have h2 := congrArg Prod.snd hpair
    dsimp only at h1 h2
    constructor
    · rw [← h2]
      rfl
    · intro pid
      rw [← h1, makeOrderItems_adj hval]
      exact cancelAll_checkoutAll_inverse ps (cart.items.map CartItem.adj) pid

theorem C3_witness :
    checkout psTracked (some cartTracked) 9 true true = .ok resTracked ∧
    ((∀ (ps0 : Products) (o : Order),
      ((cancelOrder ps0 o).isOk = true ↔
        (o.orderStatus = .pending ∨ o.orderStatus = .confirmed)) ∧
      (¬ (o.orderStatus = .pending ∨ o.orderStatus = .confirmed) →
        cancelOrder ps0 o = .error .invalidTransition)) ∧
    ∀ ps2 o2, cancelOrder resTracked.products resTracked.order = .ok (ps2, o2) →
      o2.orderStatus = .cancelled ∧
      ∀ pid, findProduct ps2 pid = findProduct psTracked pid) :=
  ⟨checkout_psTracked,
   C3_cancel_legal_and_inverse psTracked cartTracked 9 resTracked checkout_psTracked⟩

/-- C7: checkout with the required request fields fails with the
empty-cart response when the cart is missing or has no items, and on
success each order line's unit price and total equal the price and total
stored in the cart line (the snapshot taken at add-to-cart), never a
re-fetched catalog price. -/
theorem C7_checkout_prices (ps : Products) (user : Nat) :
    checkout ps none user true true = .error .emptyCart ∧
    (∀ cart : Cart, cart.items = [] →
      checkout ps (some cart) user true true = .error .emptyCart) ∧
    (∀ (cart : Cart) (r : CheckoutOk),
      checkout ps (some cart) user true true = .ok r →
      r.order.items.map (fun i => (i.price, i.total)) =
        cart.items.map (fun i => (i.price, i.total))) := by
  refine ⟨by simp [checkout], ?_, ?_⟩
  · intro cart hc
    simp [checkout, hc]
  · intro cart r h
    obtain ⟨cart2, hceq, hlen, hval, hr⟩ := checkout_ok_inv h
    have hc2 : cart2 = cart := by
      injection hceq with h2
      exact h2.symm
    subst hc2
    subst hr
    exact makeOrderItems_prices hval

theorem C7_witness :
    checkout psTracked none 9 true true = .error .emptyCart ∧
    checkout psTracked (some cartEmpty) 9 true true = .error .emptyCart ∧
    resTracked.order.items.map (fun i => (i.price, i.total)) =
      cartTracked.items.map (fun i => (i.price, i.total)) :=
  ⟨(C7_checkout_prices psTracked 9).1,
   (C7_checkout_prices psTracked 9).2.1 cartEmpty rfl,
   (C7_checkout_prices psTracked 9).2.2 cartTracked resTracked checkout_psTracked⟩

theorem C9_witness :
    refund [] orderPaidIntent (some "why") true 5 = .ok ([], orderRefunded) ∧
    ([] : Products) = [] ∧ orderRefunded.orderStatus = .cancelled := by
  have h : refund [] orderPaidIntent (some "why") true 5 = .ok ([], orderRefunded) := by
    have h1 : ¬ ((some "pi_1" : Option String) = none) := by simp
    have h2 : ¬ (("why" : String) = "") := by decide
    norm_num [refund, orderPaidIntent, orderRefunded, orderSave, orderTotalsFormula,
      sumLineTotals, jsRound, h1, h2]
  exact ⟨h, C9_refund_frame [] orderPaidIntent (some "why") true 5 [] orderRefunded h⟩

end Ecommerce
